import Mathlib

/-!
Verification of the database-auth synchronization core of the BE_Project
student-records application.

The embedding models, from the repository sources:
- the `auth.users` and `teacher_profiles` tables and the `system_logs`
  audit table (supabase_schema.sql);
- the PL/pgSQL triggers of `database_sync_triggers.sql`:
  `delete_auth_user_on_profile_delete`, `audit_profile_changes`,
  `cleanup_orphaned_auth_users`, and the `orphaned_auth_users` view;
- the signup auto-provision trigger `create_teacher_profile_on_signup`
  (supabase_schema.sql);
- the backend login verifier `sign_in_with_profile_check` and the
  `/api/v1/auth/login` endpoint (auth_service.py / main_with_auth.py);
- the request-guard middleware `verify_user_profile`
  (profile_middleware.py).

UUIDs are modelled as `Nat`; table contents as lists of rows; the
append-only `system_logs` table as a list appended at the tail.  The
Supabase client profile query `.eq(..., uid).single().execute()` is
modelled as an `Option` lookup returning the matching row or `none`,
matching the `if not profile.data` branches the backend code tests.

The schema declares `system_logs.user_id UUID REFERENCES auth.users(id)`
with no ON DELETE clause (NO ACTION).  This foreign key governs every
delete of an `auth.users` row: the delete aborts when any `system_logs`
row still references the user, and a trigger-side INSERT into
`system_logs` referencing a user already deleted in the same statement
aborts as well.  The delete pipelines (`deleteProfile`, `deleteAuthUser`,
`cleanupDeleteRun`) model these checks; outcomes carry an
`Except String Unit` marking commit or abort, and an abort leaves the
whole transaction's state unchanged.
-/

/-- A row of `auth.users` (external identity store): id, email,
credential, and the `raw_user_meta_data` fields the code reads
(`full_name`, `role`). -/
structure AuthUser where
  id : Nat
  email : String
  password : String
  metaFullName : Option String
  metaRole : Option String
deriving DecidableEq, Repr

/-- A row of `teacher_profiles` (supabase_schema.sql, section 8):
`id UUID PRIMARY KEY REFERENCES auth.users(id) ON DELETE CASCADE`,
`full_name NOT NULL`, `email UNIQUE NOT NULL`, optional department and
designation, `is_active BOOLEAN DEFAULT TRUE`. -/
structure TeacherProfile where
  id : Nat
  full_name : String
  email : String
  department : Option String
  designation : Option String
  is_active : Bool
deriving DecidableEq, Repr

/-- The structured `details` JSONB payloads built by the triggers of
database_sync_triggers.sql. -/
inductive LogDetails where
  /-- `jsonb_build_object(profile_id, full_name, department, deleted_at, reason)`
  built by `delete_auth_user_on_profile_delete`. -/
  | cascadeDelete (profile_id : Nat) (full_name : String) (department : Option String)
  /-- `jsonb_build_object(old_data, deleted_at)` built by
  `audit_profile_changes` on DELETE. -/
  | auditDeleted (old : TeacherProfile)
  /-- `jsonb_build_object(old_data, new_data, updated_at)` built by
  `audit_profile_changes` on UPDATE. -/
  | auditUpdated (old : TeacherProfile) (new : TeacherProfile)
  /-- `jsonb_build_object(new_data, created_at)` built by
  `audit_profile_changes` on INSERT. -/
  | auditCreated (new : TeacherProfile)
  /-- `jsonb_build_object(count, deleted_ids, timestamp)` built by
  `cleanup_orphaned_auth_users`. -/
  | cleanupRun (count : Nat) (deleted_ids : List Nat)
deriving DecidableEq, Repr

/-- A row of `system_logs` (supabase_schema.sql, section 9): the columns
the sync triggers write. -/
structure SystemLogEntry where
  action : String
  user_id : Option Nat
  resource_type : String
  resource_id : Option Nat
  details : LogDetails
deriving DecidableEq, Repr

/-- The shared relational store plus the token-resolution oracle of the
identity provider.  `sessions` maps a bearer token to the identity id the
provider resolves it to (`auth_service.get_user`); `warnings` collects
`RAISE WARNING` output of the fail-open signup trigger. -/
structure DBState where
  authUsers : List AuthUser
  teacherProfiles : List TeacherProfile
  systemLogs : List SystemLogEntry
  sessions : List (String × Nat)
  warnings : List String
deriving DecidableEq, Repr

/-- Profile lookup by identity id: the backend query
`table('teacher_profiles').select('*').eq(..., uid).single().execute()`,
returning the row backing identity `uid` or nothing. -/
def findProfile (s : DBState) (uid : Nat) : Option TeacherProfile :=
  s.teacherProfiles.find? (fun p => p.id == uid)

/-- Credential verification `supabase.auth.sign_in_with_password`:
returns the identity whose email and credential match, else a generic
failure (`none`). -/
def verifyCredential (s : DBState) (email password : String) : Option AuthUser :=
  s.authUsers.find? (fun u => u.email == email && u.password == password)

/-- `system_logs` row written by `audit_profile_changes` on INSERT. -/
def auditCreatedEntry (p : TeacherProfile) : SystemLogEntry :=
  { action := "PROFILE_CREATED", user_id := some p.id,
    resource_type := "teacher_profile", resource_id := some p.id,
    details := LogDetails.auditCreated p }

/-- `system_logs` row written by `audit_profile_changes` on DELETE. -/
def auditDeletedEntry (p : TeacherProfile) : SystemLogEntry :=
  { action := "PROFILE_DELETED", user_id := some p.id,
    resource_type := "teacher_profile", resource_id := some p.id,
    details := LogDetails.auditDeleted p }

/-- `system_logs` row written by `delete_auth_user_on_profile_delete`. -/
def cascadeDeleteEntry (p : TeacherProfile) : SystemLogEntry :=
  { action := "PROFILE_DELETED", user_id := some p.id,
    resource_type := "teacher_profile", resource_id := some p.id,
    details := LogDetails.cascadeDelete p.id p.full_name p.department }

/-- `system_logs` row written by `cleanup_orphaned_auth_users`
(action `CLEANUP_ORPHANED_USERS`, resource_type `system`). -/
def cleanupEntry (cnt : Nat) (ids : List Nat) : SystemLogEntry :=
  { action := "CLEANUP_ORPHANED_USERS", user_id := none,
    resource_type := "system", resource_id := none,
    details := LogDetails.cleanupRun cnt ids }

/-- Deletion of one `teacher_profiles` row by id, with its AFTER DELETE
triggers, all inside one store transaction.  PostgreSQL fires same-event
triggers in name order: `trg_audit_profile_changes` attempts to insert
`auditDeletedEntry p`, then `trg_delete_auth_on_profile_delete` attempts
to insert `cascadeDeleteEntry p` and runs
`DELETE FROM auth.users WHERE id = auth_user_id`.  Both inserted rows
carry `user_id = OLD.id`, referencing `auth.users` through the NO ACTION
foreign key `system_logs.user_id REFERENCES auth.users(id)`:
- when the `auth.users` row exists, the inserts succeed but the final
  delete then violates that foreign key against the two fresh rows;
- when it does not exist (an unbacked profile), the very first insert
  already references a missing row.
Neither trigger has an exception handler, so in either case the
exception propagates and the whole transaction aborts: the profile row,
the log and the identity are all left as they were. -/
def deleteProfile (s : DBState) (pid : Nat) : DBState × Except String Unit :=
  match s.teacherProfiles.find? (fun p => p.id == pid) with
  | none => (s, Except.ok ())
  | some _ =>
    if s.authUsers.any (fun u => u.id == pid) then
      (s, Except.error "delete on auth.users violates foreign key constraint system_logs_user_id_fkey")
    else
      (s, Except.error "insert on system_logs violates foreign key constraint system_logs_user_id_fkey")

/-- Direct deletion of an `auth.users` row (outside the profile hooks),
`DELETE FROM auth.users WHERE id = uid`:
- when a `teacher_profiles` row with this id exists, the
  `ON DELETE CASCADE` constraint deletes it in the same statement, its
  AFTER DELETE audit trigger inserts a `system_logs` row with
  `user_id = uid` — referencing the user being deleted — and that insert
  violates `system_logs_user_id_fkey`: the statement aborts;
- otherwise, when any existing `system_logs` row references the user,
  the NO ACTION foreign key rejects the delete: the statement aborts;
- otherwise the row is removed and the statement commits (this is the
  only committing case, e.g. an orphan left by a failed auto-provision,
  which has neither profile nor log rows). -/
def deleteAuthUser (s : DBState) (uid : Nat) : DBState × Except String Unit :=
  if s.authUsers.any (fun u => u.id == uid) then
    if s.teacherProfiles.any (fun p => p.id == uid) then
      (s, Except.error "insert on system_logs violates foreign key constraint system_logs_user_id_fkey")
    else if s.systemLogs.any (fun e => e.user_id == some uid) then
      (s, Except.error "delete on auth.users violates foreign key constraint system_logs_user_id_fkey")
    else
      ({ s with authUsers := s.authUsers.filter (fun u => u.id != uid) }, Except.ok ())
  else
    (s, Except.ok ())

/-- The profile row `create_teacher_profile_on_signup` inserts for a new
identity: `(NEW.id, COALESCE(NEW.raw_user_meta_data->>'full_name',
NEW.email), NEW.email, true)`; the remaining columns keep their schema
defaults (NULL / NOW()). -/
def newProfileOf (u : AuthUser) : TeacherProfile :=
  { id := u.id, full_name := u.metaFullName.getD u.email, email := u.email,
    department := none, designation := none, is_active := true }

/-- Constraint violation for an insert into `teacher_profiles`:
duplicate primary key `id` or duplicate `UNIQUE` email. -/
def profileInsertViolates (ps : List TeacherProfile) (p : TeacherProfile) : Bool :=
  ps.any (fun q => q.id == p.id || q.email == p.email)

/-- Body of `create_teacher_profile_on_signup` (AFTER INSERT on
`auth.users`): insert the default profile; on any error
(`EXCEPTION WHEN OTHERS`, modelled as a constraint violation or an
abstract `storeError`) raise a warning and return without failing the
identity insert.  A successful insert fires
`audit_profile_changes` on INSERT, appending a PROFILE_CREATED entry. -/
def create_teacher_profile_on_signup (s : DBState) (u : AuthUser) (storeError : Bool) : DBState :=
  let p := newProfileOf u
  if storeError || profileInsertViolates s.teacherProfiles p then
    { s with warnings := s.warnings ++ ["Failed to create teacher profile"] }
  else
    { s with teacherProfiles := s.teacherProfiles ++ [p],
             systemLogs := s.systemLogs ++ [auditCreatedEntry p] }

/-- Signup: the `auth.users` insert followed by the AFTER INSERT
auto-provision trigger. -/
def signupAuthUser (s : DBState) (u : AuthUser) (storeError : Bool) : DBState :=
  create_teacher_profile_on_signup
    { s with authUsers := s.authUsers ++ [u] } u storeError

/-- Ids listed by the `orphaned_auth_users` view:
`auth.users LEFT JOIN teacher_profiles ... WHERE tp.id IS NULL`, the
same scan `cleanup_orphaned_auth_users` aggregates into
`v_deleted_ids`. -/
def orphanedIds (s : DBState) : List Nat :=
  (s.authUsers.filter
    (fun au => !(s.teacherProfiles.any (fun tp => tp.id == au.id)))).map (fun au => au.id)

/-- The delete phase of `cleanup_orphaned_auth_users`,
`DELETE FROM auth.users WHERE id = ANY(v_deleted_ids)`, in the case the
statement commits: none of the listed ids has a backing profile (no FK
cascade fires) nor a referencing `system_logs` row (the NO ACTION check
passes), which holds of every orphan set the job scans atomically on a
program-reachable state — such orphans stem from failed auto-provision
and have neither a profile nor any log row.  The statement then removes
exactly the listed identities.  `cleanupDeleteRun` below models the same
statement with its foreign-key checks, for the scan/delete race
analysis. -/
def cleanupDeleteStep (s : DBState) (ids : List Nat) : DBState :=
  { s with authUsers := s.authUsers.filter (fun u => !(ids.contains u.id)) }

/-- Failure condition of `DELETE FROM auth.users WHERE id = ANY(ids)`:
some listed user either has a `teacher_profiles` row (the FK cascade
deletes it and the cascaded delete's audit trigger inserts a
`system_logs` row referencing the user being deleted — an FK violation)
or is referenced by an existing `system_logs` row (NO ACTION
violation). -/
def cleanupDeleteFails (s : DBState) (ids : List Nat) : Bool :=
  s.authUsers.any (fun u => ids.contains u.id &&
    (s.teacherProfiles.any (fun p => p.id == u.id) ||
     s.systemLogs.any (fun e => e.user_id == some u.id)))

/-- The delete phase with its foreign-key checks: one statement over the
precomputed id list, which either commits (removing exactly the listed
identities) or raises, aborting the entire cleanup transaction —
including the summary log insert — so the state is unchanged. -/
def cleanupDeleteRun (s : DBState) (ids : List Nat) : DBState × Except String Unit :=
  if cleanupDeleteFails s ids then
    (s, Except.error "delete on auth.users violates foreign key constraint system_logs_user_id_fkey")
  else
    ({ s with authUsers := s.authUsers.filter (fun u => !(ids.contains u.id)) }, Except.ok ())

/-- The spec's §5 mitigation, stated in its words for comparison with
the implementation: "recheck profile existence immediately before each
delete (read-then-delete, not delete-by-precomputed-list)" — each listed
id is rechecked against the current profiles and deleted only when still
orphaned. -/
def cleanupReadThenDelete (s : DBState) (ids : List Nat) : DBState :=
  ids.foldl
    (fun t n =>
      if t.teacherProfiles.any (fun p => p.id == n) then t
      else { t with authUsers := t.authUsers.filter (fun u => u.id != n) })
    s

/-- `cleanup_orphaned_auth_users` run atomically (no concurrent writes):
aggregate the orphan ids, log the cleanup summary, then delete the
aggregated ids when the count is positive; returns the new state and the
reported `deleted_count`. -/
def cleanup_orphaned_auth_users (s : DBState) : DBState × Nat :=
  let ids := orphanedIds s
  let cnt := ids.length
  let s1 := { s with systemLogs := s.systemLogs ++ [cleanupEntry cnt ids] }
  let s2 := if cnt > 0 then cleanupDeleteStep s1 ids else s1
  (s2, cnt)

/-- The session tokens Supabase mints on a successful
`sign_in_with_password`; opaque here, derived from the identity id. -/
structure SessionTokens where
  access_token : String
  refresh_token : String
deriving DecidableEq, Repr

def mintSession (u : AuthUser) : SessionTokens :=
  { access_token := "access-" ++ toString u.id,
    refresh_token := "refresh-" ++ toString u.id }

/-- The `user` dictionary `sign_in_with_profile_check` returns:
id, email, `user_metadata.get("role", "teacher")`, and the profile's
`full_name`. -/
structure SignInUser where
  id : Nat
  email : String
  role : String
  full_name : String
deriving DecidableEq, Repr

/-- The success payload of `sign_in_with_profile_check`. -/
structure SignInResult where
  user : SignInUser
  session : SessionTokens
deriving DecidableEq, Repr

/-- `auth_service.sign_in_with_profile_check(email, password)`:
(1) `sign_in_with_password`; invalid credentials raise; (2) look up the
teacher profile of the verified identity; (3) when the profile is
missing, delete the orphaned auth user
(`supabase.auth.admin.delete_user`) and raise; (4) otherwise return the
profile-enriched user and the session.  The surrounding
`except Exception` handler re-raises every failure with the
`"Sign in failed: "` prefix; the final messages are modelled directly.
Returns the (possibly self-healed) store alongside the outcome. -/
def sign_in_with_profile_check (s : DBState) (email password : String) :
    DBState × Except String SignInResult :=
  match verifyCredential s email password with
  | none => (s, Except.error "Sign in failed: Invalid credentials")
  | some u =>
    match findProfile s u.id with
    | none =>
      ({ s with authUsers := s.authUsers.filter (fun v => v.id != u.id) },
       Except.error "Sign in failed: User profile has been deleted. Please contact administrator.")
    | some p =>
      (s, Except.ok
        { user := { id := u.id, email := u.email,
                    role := u.metaRole.getD "teacher",
                    full_name := p.full_name },
          session := mintSession u })

/-- HTTP outcome of the `/api/v1/auth/login` endpoint. -/
inductive LoginHttp where
  | ok (user : SignInUser) (session : SessionTokens)
  | err (status : Nat) (detail : String)
deriving DecidableEq, Repr

/-- The login endpoint of main_with_auth.py: any exception from
`sign_in_with_profile_check` becomes `HTTPException(400, str(e))`. -/
def login (s : DBState) (email password : String) : DBState × LoginHttp :=
  match sign_in_with_profile_check s email password with
  | (s1, Except.ok r) => (s1, LoginHttp.ok r.user r.session)
  | (s1, Except.error e) => (s1, LoginHttp.err 400 e)

/-- Count of PROFILE_DELETED rows in `system_logs`. -/
def countProfileDeleted (logs : List SystemLogEntry) : Nat :=
  (logs.filter (fun e => e.action == "PROFILE_DELETED")).length

/-- Profile→Identity invariant (spec §3): every `teacher_profiles` row
is backed by a live `auth.users` row with the same id. -/
def profilesBacked (s : DBState) : Bool :=
  s.teacherProfiles.all (fun p => s.authUsers.any (fun u => u.id == p.id))

/-! ### Example fixtures used by witnesses and counterexamples -/

/-- A registered identity with a synced profile. -/
def alice : AuthUser :=
  { id := 1, email := "alice@x.com", password := "pw1",
    metaFullName := some "Alice", metaRole := some "teacher" }

/-- Alice's teacher profile (as auto-provisioned). -/
def aliceProfile : TeacherProfile :=
  { id := 1, full_name := "Alice", email := "alice@x.com",
    department := none, designation := none, is_active := true }

/-- An identity whose profile has been removed (orphan). -/
def bob : AuthUser :=
  { id := 2, email := "bob@x.com", password := "pw2",
    metaFullName := none, metaRole := none }

/-- Bob's profile, as re-created between a reconciliation scan and its
delete step. -/
def bobProfile : TeacherProfile :=
  { id := 2, full_name := "Bob", email := "bob@x.com",
    department := none, designation := none, is_active := true }

/-- Store with Alice synced and a live session token for her. -/
def sSynced : DBState :=
  { authUsers := [alice], teacherProfiles := [aliceProfile],
    systemLogs := [], sessions := [("tok1", 1)], warnings := [] }

/-- Store with Bob's identity orphaned (profile deleted out of band)
while his session token is still valid. -/
def sOrphan : DBState :=
  { authUsers := [bob], teacherProfiles := [],
    systemLogs := [], sessions := [("tok2", 2)], warnings := [] }

/-! ### Shared helper lemmas -/

/-- Rows surviving a delete-by-id filter never match that id again
(instantiated at both `AuthUser` and `TeacherProfile` id projections). -/
theorem any_eq_false_filter_ne {α : Type} (f : α → Nat) (l : List α) (n : Nat) :
    ((l.filter (fun x => f x != n)).any (fun x => f x == n)) = false := by
  rw [List.any_eq_false]
  intro x hx
  rcases List.mem_filter.mp hx with ⟨-, hne⟩
  simpa using hne

/-- A profile delete never changes the store: it matches no row, or its
trigger pipeline raises a foreign-key violation and the transaction
aborts. -/
theorem deleteProfile_fst (s : DBState) (pid : Nat) :
    (deleteProfile s pid).fst = s := by
  unfold deleteProfile
  cases s.teacherProfiles.find? (fun p => p.id == pid) with
  | none => rfl
  | some p =>
    cases h : s.authUsers.any (fun u => u.id == pid) <;> simp [h]

/-! ### C1 — sessions require a live profile at verification time -/

/-- C1.  `sign_in_with_profile_check` returns a session only when, in
the store it was called on, credential verification returned an identity
and a `teacher_profiles` row with that identity's id exists; when the
profile lookup finds no row the call returns an error and no session. -/
theorem sign_in_session_requires_profile :
    (∀ (s : DBState) (email pw : String) (r : SignInResult),
        (sign_in_with_profile_check s email pw).snd = Except.ok r →
        ∃ u, verifyCredential s email pw = some u ∧ r.user.id = u.id ∧
          (findProfile s u.id).isSome = true)
  ∧ (∀ (s : DBState) (email pw : String) (u : AuthUser),
        verifyCredential s email pw = some u → findProfile s u.id = none →
        ∃ e, (sign_in_with_profile_check s email pw).snd = Except.error e) := by
  constructor
  · intro s email pw r h
    cases hv : verifyCredential s email pw with
    | none => simp [sign_in_with_profile_check, hv] at h
    | some u =>
      cases hp : findProfile s u.id with
      | none => simp [sign_in_with_profile_check, hv, hp] at h
      | some p =>
        simp only [sign_in_with_profile_check, hv, hp] at h
        refine ⟨u, rfl, ?_, by rw [hp]; rfl⟩
        have hr : r = { user := { id := u.id, email := u.email,
                                  role := u.metaRole.getD "teacher",
                                  full_name := p.full_name },
                        session := mintSession u } := by
          exact (Except.ok.injEq _ _ |>.mp h).symm
        rw [hr]
  · intro s email pw u hv hp
    refine ⟨"Sign in failed: User profile has been deleted. Please contact administrator.", ?_⟩
    simp only [sign_in_with_profile_check, hv, hp]

/-- Witness for C1 at the synced store. -/
theorem sign_in_session_requires_profile_witness :
    ∃ u, verifyCredential sSynced "alice@x.com" "pw1" = some u ∧
      ({ user := { id := 1, email := "alice@x.com", role := "teacher",
                   full_name := "Alice" },
         session := { access_token := "access-1",
                      refresh_token := "refresh-1" } } : SignInResult).user.id = u.id ∧
      (findProfile sSynced u.id).isSome = true :=
  sign_in_session_requires_profile.1 sSynced "alice@x.com" "pw1" _ rfl

/-! ### C4 — self-heal on login with a missing profile -/

/-- C4.  When credential verification succeeds but the identity has no
`teacher_profiles` row, `sign_in_with_profile_check` fails, the orphaned
`auth.users` row is deleted from the resulting store (a subsequent
lookup of that identity finds nothing), and the login endpoint returns
an HTTP 400 failure. -/
theorem sign_in_self_heals_orphan :
    ∀ (s : DBState) (email pw : String) (u : AuthUser),
      verifyCredential s email pw = some u → findProfile s u.id = none →
      (∃ e, (sign_in_with_profile_check s email pw).snd = Except.error e)
      ∧ (((sign_in_with_profile_check s email pw).fst.authUsers.any
            (fun v => v.id == u.id)) = false)
      ∧ (∃ d, (login s email pw).snd = LoginHttp.err 400 d) := by
  intro s email pw u hv hp
  refine ⟨⟨"Sign in failed: User profile has been deleted. Please contact administrator.", ?_⟩,
          ?_,
          ⟨"Sign in failed: User profile has been deleted. Please contact administrator.", ?_⟩⟩
  · simp only [sign_in_with_profile_check, hv, hp]
  · simp only [sign_in_with_profile_check, hv, hp]
    exact any_eq_false_filter_ne (fun v => v.id) s.authUsers u.id
  · simp only [login, sign_in_with_profile_check, hv, hp]

/-- Witness for C4 at the orphaned store. -/
theorem sign_in_self_heals_orphan_witness :
    (∃ e, (sign_in_with_profile_check sOrphan "bob@x.com" "pw2").snd = Except.error e)
    ∧ (((sign_in_with_profile_check sOrphan "bob@x.com" "pw2").fst.authUsers.any
          (fun v => v.id == bob.id)) = false)
    ∧ (∃ d, (login sOrphan "bob@x.com" "pw2").snd = LoginHttp.err 400 d) :=
  sign_in_self_heals_orphan sOrphan "bob@x.com" "pw2" bob rfl rfl

/-! ### C5 — the two login failures are distinguishable -/

/-- C5 counterexample.  In the orphaned store, a bad-credential attempt
and a valid-credential attempt with a missing profile return different
error messages from the login endpoint, so the caller can tell which
half failed; the claim that both produce the same generic message is
false. -/
theorem login_failure_messages_differ :
    (login sOrphan "bob@x.com" "bad").snd
      = LoginHttp.err 400 "Sign in failed: Invalid credentials"
  ∧ (login sOrphan "bob@x.com" "pw2").snd
      = LoginHttp.err 400 "Sign in failed: User profile has been deleted. Please contact administrator."
  ∧ ("Sign in failed: Invalid credentials" : String)
      ≠ "Sign in failed: User profile has been deleted. Please contact administrator." := by
  refine ⟨rfl, rfl, ?_⟩
  decide

/-- C5 amended.  Both failing login attempts are rejected with HTTP 400
and no session, but with distinct fixed messages: bad credentials give
the invalid-credentials message, and a missing profile gives the
profile-deleted message. -/
theorem login_failures_both_http_400 :
    (∀ (s : DBState) (email pw : String),
        verifyCredential s email pw = none →
        (login s email pw).snd
          = LoginHttp.err 400 "Sign in failed: Invalid credentials")
  ∧ (∀ (s : DBState) (email pw : String) (u : AuthUser),
        verifyCredential s email pw = some u → findProfile s u.id = none →
        (login s email pw).snd
          = LoginHttp.err 400 "Sign in failed: User profile has been deleted. Please contact administrator.") := by
  constructor
  · intro s email pw hv
    simp only [login, sign_in_with_profile_check, hv]
  · intro s email pw u hv hp
    simp only [login, sign_in_with_profile_check, hv, hp]

/-- Witness for the amended C5 at the orphaned store. -/
theorem login_failures_both_http_400_witness :
    (login sOrphan "bob@x.com" "bad").snd
      = LoginHttp.err 400 "Sign in failed: Invalid credentials"
    ∧ (login sOrphan "bob@x.com" "pw2").snd
      = LoginHttp.err 400 "Sign in failed: User profile has been deleted. Please contact administrator." :=
  ⟨login_failures_both_http_400.1 sOrphan "bob@x.com" "bad" rfl,
   login_failures_both_http_400.2 sOrphan "bob@x.com" "pw2" bob rfl rfl⟩

/-! ### C2 — request guard: 403 on missing profile, distinct from 401 -/

/-- C3 counterexample.  Deleting Alice's synced profile makes the
cascade trigger's `DELETE FROM auth.users` violate the `system_logs`
foreign key against the two log rows the triggers just inserted; nothing
catches the error, so the transaction aborts: the profile row is still
present, the state is unchanged (the failure was not logged or
swallowed), and the operation raises — contradicting the claim that the
profile deletion always completes. -/
theorem cascade_failure_aborts_profile_delete :
    ((deleteProfile sSynced 1).fst.teacherProfiles.any (fun p => p.id == 1)) = true
    ∧ (deleteProfile sSynced 1).fst = sSynced
    ∧ (deleteProfile sSynced 1).snd
        = Except.error "delete on auth.users violates foreign key constraint system_logs_user_id_fkey" := by
  exact ⟨by decide, by decide, rfl⟩

/-- C3 amended.  Identity-deletion failures are neither caught nor
swallowed: the cascade trigger has no exception handler and runs inside
the same transaction as the profile delete, and its own log inserts make
the `auth.users` delete violate the `system_logs` foreign key, so every
delete of an existing profile raises and aborts — the store is never
changed by a profile delete, and the profile deletion never completes. -/
theorem delete_profile_never_completes :
    (∀ (s : DBState) (pid : Nat), (deleteProfile s pid).fst = s)
  ∧ (∀ (s : DBState) (pid : Nat) (p : TeacherProfile),
        findProfile s pid = some p →
        ∃ e, (deleteProfile s pid).snd = Except.error e) := by
  constructor
  · exact deleteProfile_fst
  · intro s pid p hp
    rw [findProfile] at hp
    cases hu : s.authUsers.any (fun u => u.id == pid) with
    | true =>
      exact ⟨"delete on auth.users violates foreign key constraint system_logs_user_id_fkey",
             by simp [deleteProfile, hp, hu]⟩
    | false =>
      exact ⟨"insert on system_logs violates foreign key constraint system_logs_user_id_fkey",
             by simp [deleteProfile, hp, hu]⟩

/-- Witness for the amended C3 at the synced store. -/
theorem delete_profile_never_completes_witness :
    (deleteProfile sSynced 1).fst = sSynced
    ∧ ∃ e, (deleteProfile sSynced 1).snd = Except.error e :=
  ⟨delete_profile_never_completes.1 sSynced 1,
   delete_profile_never_completes.2 sSynced 1 aliceProfile rfl⟩

/-! ### C6 — reconciliation converges: deletes exactly the orphan set -/

/-- An id is in the orphan scan iff some `auth.users` row carries it and
no `teacher_profiles` row does. -/
theorem mem_orphanedIds (s : DBState) (n : Nat) :
    n ∈ orphanedIds s ↔
      (∃ au ∈ s.authUsers, au.id = n) ∧ ∀ tp ∈ s.teacherProfiles, tp.id ≠ n := by
  constructor
  · intro h
    rcases List.mem_map.mp h with ⟨au, hmem, hid⟩
    rcases List.mem_filter.mp hmem with ⟨hau, hno⟩
    subst hid
    have hfalse : (s.teacherProfiles.any (fun tp => tp.id == au.id)) = false := by
      simpa using hno
    refine ⟨⟨au, hau, rfl⟩, fun tp htp => ?_⟩
    simpa using List.any_eq_false.mp hfalse tp htp
  · rintro ⟨⟨au, hau, hid⟩, hall⟩
    subst hid
    refine List.mem_map.mpr ⟨au, List.mem_filter.mpr ⟨hau, ?_⟩, rfl⟩
    have hfalse : (s.teacherProfiles.any (fun tp => tp.id == au.id)) = false :=
      List.any_eq_false.mpr (fun tp htp => by simpa using hall tp htp)
    simpa using hfalse

/-- C6.  An atomic `cleanup_orphaned_auth_users` run keeps exactly the
identities that have a backing profile: afterwards every surviving
`auth.users` row has a `teacher_profiles` row with its id, every row it
removed had none, and the reported `deleted_count` is the size of the
scanned difference {identity ids} minus {profile ids}. -/
theorem cleanup_removes_exactly_orphans :
    (∀ (s : DBState) (au : AuthUser),
        au ∈ ((cleanup_orphaned_auth_users s).fst).authUsers ↔
          au ∈ s.authUsers ∧ ∃ tp ∈ s.teacherProfiles, tp.id = au.id)
  ∧ (∀ s : DBState, (cleanup_orphaned_auth_users s).snd = (orphanedIds s).length) := by
  constructor
  · intro s au
    simp only [cleanup_orphaned_auth_users, cleanupDeleteStep]
    split
    case isTrue hpos =>
      rw [List.mem_filter]
      constructor
      · rintro ⟨hau, hnc⟩
        refine ⟨hau, ?_⟩
        have hnotmem : au.id ∉ orphanedIds s := by simpa using hnc
        by_contra hno
        exact hnotmem ((mem_orphanedIds s au.id).mpr
          ⟨⟨au, hau, rfl⟩, fun tp htp heq => hno ⟨tp, htp, heq⟩⟩)
      · rintro ⟨hau, tp, htp, heq⟩
        refine ⟨hau, ?_⟩
        have hnotmem : au.id ∉ orphanedIds s := fun hmem =>
          ((mem_orphanedIds s au.id).mp hmem).2 tp htp heq
        simpa using hnotmem
    case isFalse hzero =>
      constructor
      · intro hau
        refine ⟨hau, ?_⟩
        have hempty : orphanedIds s = [] :=
          List.length_eq_zero.mp (Nat.eq_zero_of_not_pos hzero)
        by_contra hno
        have hmem : au.id ∈ orphanedIds s :=
          (mem_orphanedIds s au.id).mpr
            ⟨⟨au, hau, rfl⟩, fun tp htp heq => hno ⟨tp, htp, heq⟩⟩
        rw [hempty] at hmem
        exact absurd hmem (List.not_mem_nil _)
      · rintro ⟨hau, -⟩
        exact hau
  · intro s
    rfl

/-! ### C7 — the job does not recheck before each delete -/

/-- A second orphaned identity, scanned together with Bob. -/
def dave : AuthUser :=
  { id := 4, email := "dave@x.com", password := "pw4",
    metaFullName := none, metaRole := none }

/-- Identity store with Bob and Dave orphaned, as the reconciliation
scan sees it. -/
def sRaceScan : DBState :=
  { authUsers := [bob, dave], teacherProfiles := [],
    systemLogs := [], sessions := [], warnings := [] }

/-- The store at the moment of the delete step: Bob's profile was
created between the job's scan and its delete, and that insert's audit
trigger wrote the PROFILE_CREATED row referencing him. -/
def sRaceDelete : DBState :=
  { sRaceScan with teacherProfiles := [bobProfile],
                   systemLogs := [auditCreatedEntry bobProfile] }

/-- C7 counterexample.  The delete phase is not read-then-delete per id:
with the orphan list precomputed from the scan and Bob's profile created
in the gap, the spec's per-id recheck would skip Bob and still delete
the true orphan Dave, while the program's single delete-by-list
statement hits the foreign-key violation Bob's fresh rows cause and
aborts the whole run — Dave survives and nothing at all is deleted. -/
theorem cleanup_delete_does_not_recheck :
    (findProfile sRaceDelete 2).isSome = true
    ∧ (cleanupDeleteRun sRaceDelete (orphanedIds sRaceScan)).fst = sRaceDelete
    ∧ ((cleanupReadThenDelete sRaceDelete (orphanedIds sRaceScan)).authUsers.any
         (fun u => u.id == 4)) = false
    ∧ ((cleanupDeleteRun sRaceDelete (orphanedIds sRaceScan)).fst.authUsers.any
         (fun u => u.id == 4)) = true := by
  exact ⟨by decide, by decide, by decide, by decide⟩

/-- C7 amended.  The job deletes by the precomputed list in one
statement, with no per-id recheck: when no listed id has a profile or a
referencing log row the statement removes exactly the listed identities,
and otherwise it aborts the whole run, deleting nothing.  In particular
it never deletes an identity whose profile exists at the moment of the
delete — through whole-run abort, not through the read-then-delete
mitigation. -/
theorem cleanup_delete_aborts_whole_run :
    (∀ (s : DBState) (ids : List Nat),
        cleanupDeleteFails s ids = true → (cleanupDeleteRun s ids).fst = s)
  ∧ (∀ (s : DBState) (ids : List Nat) (au : AuthUser),
        cleanupDeleteFails s ids = false →
        (au ∈ (cleanupDeleteRun s ids).fst.authUsers ↔
          (au ∈ s.authUsers ∧ au.id ∉ ids)))
  ∧ (∀ (s : DBState) (ids : List Nat) (au : AuthUser),
        au ∈ s.authUsers →
        (s.teacherProfiles.any (fun p => p.id == au.id)) = true →
        au ∈ (cleanupDeleteRun s ids).fst.authUsers) := by
  refine ⟨?_, ?_, ?_⟩
  · intro s ids hf
    simp [cleanupDeleteRun, hf]
  · intro s ids au hf
    have hred : (cleanupDeleteRun s ids).fst
        = { s with authUsers := s.authUsers.filter (fun u => !(ids.contains u.id)) } := by
      simp [cleanupDeleteRun, hf]
    rw [hred]
    rw [List.mem_filter]
    constructor
    · rintro ⟨h1, h2⟩
      exact ⟨h1, by simpa using h2⟩
    · rintro ⟨h1, h2⟩
      exact ⟨h1, by simpa using h2⟩
  · intro s ids au hau hprof
    cases hf : cleanupDeleteFails s ids with
    | true =>
      have : (cleanupDeleteRun s ids).fst = s := by simp [cleanupDeleteRun, hf]
      rw [this]
      exact hau
    | false =>
      have hred : (cleanupDeleteRun s ids).fst
          = { s with authUsers := s.authUsers.filter (fun u => !(ids.contains u.id)) } := by
        simp [cleanupDeleteRun, hf]
      rw [hred]
      have hnot := List.any_eq_false.mp hf au hau
      cases hcn : ids.contains au.id with
      | false =>
        exact List.mem_filter.mpr ⟨hau, by simp only [hcn, Bool.not_false]⟩
      | true =>
        exact absurd (by simp only [hcn, hprof, Bool.true_and, Bool.true_or]) hnot

/-- Witness for the amended C7 at the race stores. -/
theorem cleanup_delete_aborts_whole_run_witness :
    (cleanupDeleteRun sRaceDelete (orphanedIds sRaceScan)).fst = sRaceDelete
    ∧ (bob ∈ (cleanupDeleteRun sRaceScan (orphanedIds sRaceScan)).fst.authUsers ↔
        (bob ∈ sRaceScan.authUsers ∧ bob.id ∉ orphanedIds sRaceScan))
    ∧ bob ∈ (cleanupDeleteRun sRaceDelete (orphanedIds sRaceScan)).fst.authUsers :=
  ⟨cleanup_delete_aborts_whole_run.1 sRaceDelete (orphanedIds sRaceScan) (by decide),
   cleanup_delete_aborts_whole_run.2.1 sRaceScan (orphanedIds sRaceScan) bob (by decide),
   cleanup_delete_aborts_whole_run.2.2 sRaceDelete (orphanedIds sRaceScan) bob
     (by decide) (by decide)⟩

/-! ### C8 — each profile delete writes two PROFILE_DELETED entries -/

/-- C8 counterexample.  The first deletion of Alice's profile appends
zero PROFILE_DELETED entries, not one: the trigger pipeline aborts on
the foreign-key violation its own log inserts cause, both inserts roll
back, and the profile row is still present (so the second deletion is
not of a "now-absent" row). -/
theorem first_profile_delete_appends_nothing :
    countProfileDeleted ((deleteProfile sSynced 1).fst.systemLogs) = 0
    ∧ ((deleteProfile sSynced 1).fst.teacherProfiles.any (fun p => p.id == 1)) = true
    ∧ (0 : Nat) ≠ 1 := by
  exact ⟨by decide, by decide, by decide⟩

/-- C8 amended.  Deleting the same profile twice produces zero
PROFILE_DELETED audit entries in total: each attempt either matches no
row or aborts on the trigger-induced foreign-key violation, rolling back
its own log inserts, so no attempt changes the log (or any other part of
the store). -/
theorem delete_profile_appends_no_entries :
    (∀ (s : DBState) (pid : Nat),
        countProfileDeleted ((deleteProfile s pid).fst.systemLogs)
          = countProfileDeleted s.systemLogs)
  ∧ (∀ (s : DBState) (pid : Nat),
        (deleteProfile (deleteProfile s pid).fst pid).fst = s) := by
  constructor
  · intro s pid
    rw [deleteProfile_fst]
  · intro s pid
    rw [deleteProfile_fst, deleteProfile_fst]

/-! ### C9 — auto-provision hook: default display name, fail-open -/

/-- A fresh signup with no display-name metadata. -/
def carol : AuthUser :=
  { id := 3, email := "carol@x.com", password := "pw3",
    metaFullName := none, metaRole := none }

/-- Reduction of signup when the profile insert fails: only the new
identity row and a warning are added. -/
theorem signupAuthUser_eq_fail (s : DBState) (u : AuthUser) (err : Bool)
    (hc : (err || profileInsertViolates s.teacherProfiles (newProfileOf u)) = true) :
    signupAuthUser s u err
      = { s with authUsers := s.authUsers ++ [u],
                 warnings := s.warnings ++ ["Failed to create teacher profile"] } := by
  simp [signupAuthUser, create_teacher_profile_on_signup, hc]

/-- Reduction of signup when the profile insert succeeds: identity row,
default profile and PROFILE_CREATED audit entry are added. -/
theorem signupAuthUser_eq_ok (s : DBState) (u : AuthUser) (err : Bool)
    (hc : (err || profileInsertViolates s.teacherProfiles (newProfileOf u)) = false) :
    signupAuthUser s u err
      = { s with authUsers := s.authUsers ++ [u],
                 teacherProfiles := s.teacherProfiles ++ [newProfileOf u],
                 systemLogs := s.systemLogs ++ [auditCreatedEntry (newProfileOf u)] } := by
  simp [signupAuthUser, create_teacher_profile_on_signup, hc]

/-- C9.  Signup always keeps the new `auth.users` row; when the profile
insert succeeds it appends exactly the default profile, whose
`full_name` falls back to the email when no metadata name was supplied;
when the insert fails for any reason the failure is reduced to a warning
and the profile store and identity row are left as they were. -/
theorem signup_fail_open :
    (∀ (s : DBState) (u : AuthUser) (err : Bool),
        u ∈ (signupAuthUser s u err).authUsers)
  ∧ (∀ (s : DBState) (u : AuthUser),
        profileInsertViolates s.teacherProfiles (newProfileOf u) = false →
        (signupAuthUser s u false).teacherProfiles
          = s.teacherProfiles ++ [newProfileOf u])
  ∧ (∀ u : AuthUser, u.metaFullName = none → (newProfileOf u).full_name = u.email)
  ∧ (∀ (s : DBState) (u : AuthUser) (err : Bool),
        (err || profileInsertViolates s.teacherProfiles (newProfileOf u)) = true →
        (signupAuthUser s u err).teacherProfiles = s.teacherProfiles
        ∧ (signupAuthUser s u err).warnings
            = s.warnings ++ ["Failed to create teacher profile"]
        ∧ (signupAuthUser s u err).authUsers = s.authUsers ++ [u]) := by
  refine ⟨?_, ?_, ?_, ?_⟩
  · intro s u err
    cases hc : (err || profileInsertViolates s.teacherProfiles (newProfileOf u)) with
    | true => rw [signupAuthUser_eq_fail s u err hc]; simp
    | false => rw [signupAuthUser_eq_ok s u err hc]; simp
  · intro s u hv
    rw [signupAuthUser_eq_ok s u false (by simpa using hv)]
  · intro u h
    simp [newProfileOf, h]
  · intro s u err hc
    rw [signupAuthUser_eq_fail s u err hc]
    exact ⟨rfl, rfl, rfl⟩

/-- Witness for C9: Carol signs up against the synced store. -/
theorem signup_fail_open_witness :
    carol ∈ (signupAuthUser sSynced carol false).authUsers
    ∧ (signupAuthUser sSynced carol false).teacherProfiles
        = sSynced.teacherProfiles ++ [newProfileOf carol]
    ∧ (newProfileOf carol).full_name = carol.email
    ∧ ((signupAuthUser sSynced carol true).teacherProfiles = sSynced.teacherProfiles
       ∧ (signupAuthUser sSynced carol true).warnings
           = sSynced.warnings ++ ["Failed to create teacher profile"]
       ∧ (signupAuthUser sSynced carol true).authUsers = sSynced.authUsers ++ [carol]) :=
  ⟨signup_fail_open.1 sSynced carol false,
   signup_fail_open.2.1 sSynced carol (by decide),
   signup_fail_open.2.2.1 carol rfl,
   signup_fail_open.2.2.2 sSynced carol true rfl⟩

/-! ### C10 — FK cascade keeps profiles backed by identities -/

/-- `profilesBacked` as a proposition. -/
theorem profilesBacked_iff (s : DBState) :
    profilesBacked s = true ↔
      ∀ p ∈ s.teacherProfiles, ∃ u ∈ s.authUsers, u.id = p.id := by
  simp [profilesBacked, List.all_eq_true, List.any_eq_true]

/-- C10 counterexample.  A direct delete of Alice's identity does not
delete her profile in the same operation: the cascaded profile delete's
audit insert references the user being deleted, the statement aborts
with a foreign-key violation, and both the identity and the profile
remain. -/
theorem direct_identity_delete_aborts :
    (deleteAuthUser sSynced 1).fst = sSynced
    ∧ ((deleteAuthUser sSynced 1).fst.teacherProfiles.any (fun p => p.id == 1)) = true
    ∧ (deleteAuthUser sSynced 1).snd
        = Except.error "insert on system_logs violates foreign key constraint system_logs_user_id_fkey" := by
  exact ⟨by decide, by decide, rfl⟩

/-- C10 amended.  The FK `ON DELETE CASCADE` is declared, but a direct
identity delete whose identity still has a profile always aborts (the
cascaded profile delete's audit insert references the user being
deleted), removing neither row; the Profile-without-Identity state is
unreachable all the same, since every core operation — direct identity
delete, profile delete, signup, both models of the reconciliation
delete, and the self-healing login — preserves the invariant that each
profile row is backed by a live identity row of the same id. -/
theorem identity_delete_aborts_and_profiles_stay_backed :
    (∀ (s : DBState) (uid : Nat),
        (s.authUsers.any (fun u => u.id == uid)) = true →
        (s.teacherProfiles.any (fun p => p.id == uid)) = true →
        (deleteAuthUser s uid).fst = s
        ∧ ∃ e, (deleteAuthUser s uid).snd = Except.error e)
  ∧ (∀ (s : DBState) (uid : Nat),
        profilesBacked s = true → profilesBacked (deleteAuthUser s uid).fst = true)
  ∧ (∀ (s : DBState) (pid : Nat),
        profilesBacked s = true → profilesBacked (deleteProfile s pid).fst = true)
  ∧ (∀ (s : DBState) (u : AuthUser) (err : Bool),
        profilesBacked s = true → profilesBacked (signupAuthUser s u err) = true)
  ∧ (∀ s : DBState,
        profilesBacked s = true →
        profilesBacked (cleanup_orphaned_auth_users s).fst = true)
  ∧ (∀ (s : DBState) (ids : List Nat),
        profilesBacked s = true → profilesBacked (cleanupDeleteRun s ids).fst = true)
  ∧ (∀ (s : DBState) (email pw : String),
        profilesBacked s = true →
        profilesBacked (sign_in_with_profile_check s email pw).fst = true) := by
  refine ⟨?_, ?_, ?_, ?_, ?_, ?_, ?_⟩
  · intro s uid h1 h2
    refine ⟨by simp [deleteAuthUser, h1, h2], ?_⟩
    exact ⟨"insert on system_logs violates foreign key constraint system_logs_user_id_fkey",
           by simp [deleteAuthUser, h1, h2]⟩
  · intro s uid h
    cases h1 : s.authUsers.any (fun u => u.id == uid) with
    | false =>
      have hfst : (deleteAuthUser s uid).fst = s := by simp [deleteAuthUser, h1]
      rw [hfst]
      exact h
    | true =>
      cases h2 : s.teacherProfiles.any (fun p => p.id == uid) with
      | true =>
        have hfst : (deleteAuthUser s uid).fst = s := by simp [deleteAuthUser, h1, h2]
        rw [hfst]
        exact h
      | false =>
        cases h3 : s.systemLogs.any (fun e => e.user_id == some uid) with
        | true =>
          have hfst : (deleteAuthUser s uid).fst = s := by simp [deleteAuthUser, h1, h2, h3]
          rw [hfst]
          exact h
        | false =>
          have hfst : (deleteAuthUser s uid).fst
              = { s with authUsers := s.authUsers.filter (fun u => u.id != uid) } := by
            simp [deleteAuthUser, h1, h2, h3]
          rw [profilesBacked_iff] at h ⊢
          rw [hfst]
          intro q hq
          rcases h q hq with ⟨u, hu, huid⟩
          have hqne : q.id ≠ uid := by simpa using List.any_eq_false.mp h2 q hq
          refine ⟨u, List.mem_filter.mpr ⟨hu, ?_⟩, huid⟩
          rw [huid]
          simpa using hqne
  · intro s pid h
    rw [deleteProfile_fst]
    exact h
  · intro s u err h
    rw [profilesBacked_iff] at h ⊢
    cases hc : (err || profileInsertViolates s.teacherProfiles (newProfileOf u)) with
    | true =>
      rw [signupAuthUser_eq_fail s u err hc]
      intro q hq
      rcases h q hq with ⟨v, hv, hvid⟩
      exact ⟨v, List.mem_append_left _ hv, hvid⟩
    | false =>
      rw [signupAuthUser_eq_ok s u err hc]
      intro q hq
      rcases List.mem_append.mp hq with hq0 | hq1
      · rcases h q hq0 with ⟨v, hv, hvid⟩
        exact ⟨v, List.mem_append_left _ hv, hvid⟩
      · have hqe : q = newProfileOf u := by simpa using hq1
        refine ⟨u, List.mem_append_right _ (by simp), ?_⟩
        rw [hqe]
        rfl
  · intro s h
    rw [profilesBacked_iff] at h ⊢
    simp only [cleanup_orphaned_auth_users, cleanupDeleteStep]
    split
    case isTrue hpos =>
      intro q hq
      rcases h q hq with ⟨u, hu, huid⟩
      refine ⟨u, List.mem_filter.mpr ⟨hu, ?_⟩, huid⟩
      have hnotmem : u.id ∉ orphanedIds s := fun hmem =>
        ((mem_orphanedIds s u.id).mp hmem).2 q hq huid.symm
      simpa using hnotmem
    case isFalse hzero =>
      exact h
  · intro s ids h
    cases hf : cleanupDeleteFails s ids with
    | true =>
      have hfst : (cleanupDeleteRun s ids).fst = s := by simp [cleanupDeleteRun, hf]
      rw [hfst]
      exact h
    | false =>
      have hfst : (cleanupDeleteRun s ids).fst
          = { s with authUsers := s.authUsers.filter (fun u => !(ids.contains u.id)) } := by
        simp [cleanupDeleteRun, hf]
      rw [profilesBacked_iff] at h ⊢
      rw [hfst]
      intro q hq
      rcases h q hq with ⟨u, hu, huid⟩
      refine ⟨u, List.mem_filter.mpr ⟨hu, ?_⟩, huid⟩
      have hnot := List.any_eq_false.mp hf u hu
      have hpq : (s.teacherProfiles.any (fun p => p.id == u.id)) = true :=
        List.any_eq_true.mpr ⟨q, hq, by simp [huid]⟩
      cases hcn : ids.contains u.id with
      | false => simp only [hcn, Bool.not_false]
      | true =>
        exact absurd (by simp only [hcn, hpq, Bool.true_and, Bool.true_or]) hnot
  · intro s email pw h
    rw [profilesBacked_iff] at h ⊢
    cases hv : verifyCredential s email pw with
    | none => simp only [sign_in_with_profile_check, hv]; exact h
    | some u =>
      cases hp : findProfile s u.id with
      | some p => simp only [sign_in_with_profile_check, hv, hp]; exact h
      | none =>
        simp only [sign_in_with_profile_check, hv, hp]
        have hp' : s.teacherProfiles.find? (fun q => q.id == u.id) = none := by
          simpa [findProfile] using hp
        intro q hq
        rcases h q hq with ⟨v, hvm, hvid⟩
        have hqne : ¬(q.id == u.id) = true := List.find?_eq_none.mp hp' q hq
        refine ⟨v, List.mem_filter.mpr ⟨hvm, ?_⟩, hvid⟩
        rw [hvid]
        simpa using hqne

/-- Witness for the amended C10 at the concrete stores. -/
theorem identity_delete_aborts_witness :
    ((deleteAuthUser sSynced 1).fst = sSynced
     ∧ ∃ e, (deleteAuthUser sSynced 1).snd = Except.error e)
    ∧ profilesBacked (deleteAuthUser sSynced 1).fst = true
    ∧ profilesBacked (deleteProfile sSynced 1).fst = true
    ∧ profilesBacked (signupAuthUser sSynced carol false) = true
    ∧ profilesBacked (cleanup_orphaned_auth_users sOrphan).fst = true
    ∧ profilesBacked (cleanupDeleteRun sOrphan (orphanedIds sOrphan)).fst = true
    ∧ profilesBacked (sign_in_with_profile_check sOrphan "bob@x.com" "pw2").fst = true :=
  ⟨identity_delete_aborts_and_profiles_stay_backed.1 sSynced 1 (by decide) (by decide),
   identity_delete_aborts_and_profiles_stay_backed.2.1 sSynced 1 (by decide),
   identity_delete_aborts_and_profiles_stay_backed.2.2.1 sSynced 1 (by decide),
   identity_delete_aborts_and_profiles_stay_backed.2.2.2.1 sSynced carol false (by decide),
   identity_delete_aborts_and_profiles_stay_backed.2.2.2.2.1 sOrphan (by decide),
   identity_delete_aborts_and_profiles_stay_backed.2.2.2.2.2.1 sOrphan (orphanedIds sOrphan)
     (by decide),
   identity_delete_aborts_and_profiles_stay_backed.2.2.2.2.2.2 sOrphan "bob@x.com" "pw2"
     (by decide)⟩
